import Mathlib

/-!
Verification of the back-it-up PostgreSQL backup tool (iostate/back-it-up).

The development shallowly embeds the Go sources:
  - internal/backup/service.go  (Service.Backup / Restore / Verify / getDatabaseChecksum)
  - internal/docker/service.go  (Service.VerifyContainer)
  - cmd/commands.go             (runBackup, runTest)

External effects (filesystem, docker, spawned processes) are modelled by
explicit environment records that fix the outcome of each external call, and
every operation additionally returns the ordered list of external actions it
actually performed, so frame conditions ("no artifact written", "no database
mutated") are provable as facts about that trace.
-/

/-- Model of Go strings.TrimSpace: strip leading and trailing whitespace. -/
def trimSpace (s : String) : String :=
  ⟨((s.data.dropWhile Char.isWhitespace).reverse.dropWhile Char.isWhitespace).reverse⟩

/-- Decimal digit character, as produced by Go integer formatting. -/
def digitChar (n : Nat) : Char := Char.ofNat (48 + n)

/-- Two-digit zero-padded decimal, as Go time layout fields 01/02/15/04/05. -/
def pad2 (n : Nat) : List Char := [digitChar (n / 10 % 10), digitChar (n % 10)]

/-- Four-digit zero-padded decimal, as the Go time layout field 2006. -/
def pad4 (n : Nat) : List Char :=
  [digitChar (n / 1000 % 10), digitChar (n / 100 % 10),
   digitChar (n / 10 % 10), digitChar (n % 10)]

/-- A wall-clock timestamp at seconds granularity (model of the fields of
time.Time that the layout string 2006_01_02_15_04_05 consumes). -/
structure Timestamp where
  year : Nat
  month : Nat
  day : Nat
  hour : Nat
  minute : Nat
  second : Nat
deriving DecidableEq

/-- Ranges of a real calendar timestamp, which every time.Time satisfies. -/
def Timestamp.valid (t : Timestamp) : Prop :=
  t.year ≤ 9999 ∧ 1 ≤ t.month ∧ t.month ≤ 12 ∧ 1 ≤ t.day ∧ t.day ≤ 31 ∧
  t.hour ≤ 23 ∧ t.minute ≤ 59 ∧ t.second ≤ 59

instance (t : Timestamp) : Decidable t.valid := by
  unfold Timestamp.valid; infer_instance

/-- Character list of cfg.Timestamp.Format applied to 2006_01_02_15_04_05. -/
def tsChars (t : Timestamp) : List Char :=
  pad4 t.year ++ '_' :: (pad2 t.month ++ '_' :: (pad2 t.day ++ '_' ::
    (pad2 t.hour ++ '_' :: (pad2 t.minute ++ '_' :: pad2 t.second))))

/-- Model of cfg.Timestamp.Format applied to the layout 2006_01_02_15_04_05
(service.go line 38). -/
def formatTimestamp (t : Timestamp) : String := ⟨tsChars t⟩

/-- The Sprintf at service.go lines 36-38: {database}_{timestamp}.sql.gz. -/
def backupFilename (db : String) (t : Timestamp) : String :=
  db ++ "_" ++ formatTimestamp t ++ ".sql.gz"

/-- Model of filepath.Join at service.go line 39 (Join additionally cleans the
path lexically; the claims do not depend on cleaning). -/
def joinPath (dir fn : String) : String := dir ++ "/" ++ fn

/-! MD5 (RFC 1321), the digest used by getDatabaseChecksum via crypto/md5.
Bytes are naturals below 256; words are naturals reduced modulo 2^32. -/

def w32 : Nat := 4294967296

def mask32 : Nat := 4294967295

/-- Per-round left-rotation amounts. -/
def md5S : List Nat :=
  [7, 12, 17, 22, 7, 12, 17, 22, 7, 12, 17, 22, 7, 12, 17, 22,
   5, 9, 14, 20, 5, 9, 14, 20, 5, 9, 14, 20, 5, 9, 14, 20,
   4, 11, 16, 23, 4, 11, 16, 23, 4, 11, 16, 23, 4, 11, 16, 23,
   6, 10, 15, 21, 6, 10, 15, 21, 6, 10, 15, 21, 6, 10, 15, 21]

/-- Per-round additive constants (binary integer parts of abs(sin(i+1))). -/
def md5K : List Nat :=
  [0xd76aa478, 0xe8c7b756, 0x242070db, 0xc1bdceee,
   0xf57c0faf, 0x4787c62a, 0xa8304613, 0xfd469501,
   0x698098d8, 0x8b44f7af, 0xffff5bb1, 0x895cd7be,
   0x6b901122, 0xfd987193, 0xa679438e, 0x49b40821,
   0xf61e2562, 0xc040b340, 0x265e5a51, 0xe9b6c7aa,
   0xd62f105d, 0x02441453, 0xd8a1e681, 0xe7d3fbc8,
   0x21e1cde6, 0xc33707d6, 0xf4d50d87, 0x455a14ed,
   0xa9e3e905, 0xfcefa3f8, 0x676f02d9, 0x8d2a4c8a,
   0xfffa3942, 0x8771f681, 0x6d9d6122, 0xfde5380c,
   0xa4beea44, 0x4bdecfa9, 0xf6bb4b60, 0xbebfbc70,
   0x289b7ec6, 0xeaa127fa, 0xd4ef3085, 0x04881d05,
   0xd9d4d039, 0xe6db99e5, 0x1fa27cf8, 0xc4ac5665,
   0xf4292244, 0x432aff97, 0xab9423a7, 0xfc93a039,
   0x655b59c3, 0x8f0ccc92, 0xffeff47d, 0x85845dd1,
   0x6fa87e4f, 0xfe2ce6e0, 0xa3014314, 0x4e0811a1,
   0xf7537e82, 0xbd3af235, 0x2ad7d2bb, 0xeb86d391]

/-- Left-rotate a 32-bit word by n bits. -/
def rotl32 (x n : Nat) : Nat := (((x <<< n) % w32) ||| (x >>> (32 - n)))

/-- Four bytes of a 32-bit word, little endian. -/
def leBytes4 (n : Nat) : List Nat :=
  [n % 256, n / 256 % 256, n / 65536 % 256, n / 16777216 % 256]

/-- Eight bytes of a 64-bit quantity, little endian. -/
def leBytes8 (n : Nat) : List Nat := leBytes4 (n % w32) ++ leBytes4 (n / w32)

/-- RFC 1321 padding: 0x80, zeros to 56 mod 64, then the bit length. -/
def md5Pad (msg : List Nat) : List Nat :=
  msg ++ 0x80 :: (List.replicate ((119 - msg.length % 64) % 64) 0 ++
    leBytes8 (8 * msg.length))

/-- Little-endian 32-bit word number i of a 64-byte block. -/
def leWord (b : List Nat) (i : Nat) : Nat :=
  b.getD (4 * i) 0 + 256 * b.getD (4 * i + 1) 0 +
    65536 * b.getD (4 * i + 2) 0 + 16777216 * b.getD (4 * i + 3) 0

/-- The sixteen message words of one block. -/
def blockWords (b : List Nat) : List Nat := (List.range 16).map (leWord b)

/-- One of the 64 MD5 rounds on the running (a, b, c, d) state. -/
def md5Step (M : List Nat) (st : Nat × Nat × Nat × Nat) (i : Nat) :
    Nat × Nat × Nat × Nat :=
  let a := st.1
  let b := st.2.1
  let c := st.2.2.1
  let d := st.2.2.2
  let f :=
    if i < 16 then (b &&& c) ||| ((b ^^^ mask32) &&& d)
    else if i < 32 then (d &&& b) ||| ((d ^^^ mask32) &&& c)
    else if i < 48 then b ^^^ c ^^^ d
    else c ^^^ (b ||| (d ^^^ mask32))
  let g :=
    if i < 16 then i
    else if i < 32 then (5 * i + 1) % 16
    else if i < 48 then (3 * i + 5) % 16
    else 7 * i % 16
  let tmp := (f + a + md5K.getD i 0 + M.getD g 0) % w32
  (d, (b + rotl32 tmp (md5S.getD i 0)) % w32, b, c)

/-- MD5 compression of one 64-byte block. -/
def md5Block (st : Nat × Nat × Nat × Nat) (blk : List Nat) :
    Nat × Nat × Nat × Nat :=
  let M := blockWords blk
  let r := (List.range 64).foldl (md5Step M) st
  ((st.1 + r.1) % w32, (st.2.1 + r.2.1) % w32,
   (st.2.2.1 + r.2.2.1) % w32, (st.2.2.2 + r.2.2.2) % w32)

/-- Split into 64-byte blocks (fuel-indexed so it reduces in the kernel). -/
def toBlocksAux : Nat → List Nat → List (List Nat)
  | 0, _ => []
  | _, [] => []
  | fuel + 1, a :: rest => ((a :: rest).take 64) :: toBlocksAux fuel (rest.drop 63)

/-- Split a padded message into its 64-byte blocks. -/
def toBlocks (l : List Nat) : List (List Nat) := toBlocksAux l.length l

/-- The MD5 initialisation vector. -/
def md5Init : Nat × Nat × Nat × Nat :=
  (0x67452301, 0xefcdab89, 0x98badcfe, 0x10325476)

/-- Serialise the final state little-endian, 16 bytes. -/
def md5Final (st : Nat × Nat × Nat × Nat) : List Nat :=
  leBytes4 st.1 ++ leBytes4 st.2.1 ++ leBytes4 st.2.2.1 ++ leBytes4 st.2.2.2

/-- md5.Sum: the sixteen digest bytes of a byte stream. -/
def md5Bytes (msg : List Nat) : List Nat :=
  md5Final ((toBlocks (md5Pad msg)).foldl md5Block md5Init)

/-- Lowercase hexadecimal digit. -/
def hexDigit (n : Nat) : Char :=
  if n < 10 then Char.ofNat (48 + n) else Char.ofNat (87 + n)

/-- fmt.Sprintf %x of the digest (service.go line 204): 32 lowercase hex
characters. -/
def md5hex (msg : List Nat) : String :=
  ⟨(md5Bytes msg).foldr (fun b acc => hexDigit (b / 16) :: hexDigit (b % 16) :: acc) []⟩

set_option maxRecDepth 100000

/-- Reference vector: MD5 of the empty message. -/
theorem md5hex_nil : md5hex [] = "d41d8cd98f00b204e9800998ecf8427e" := by decide

/-- Reference vector: MD5 of the ASCII bytes of abc. -/
theorem md5hex_abc : md5hex [97, 98, 99] = "900150983cd24fb0d6963f7d28e17f72" := by
  decide

/-! The data model of internal/backup/config.go. -/

/-- Config (config.go lines 5-11). -/
structure Config where
  ContainerName : String
  DatabaseName : String
  DatabaseUser : String
  OutputDir : String
  Timestamp : Timestamp

/-- RestoreConfig (config.go lines 13-19). -/
structure RestoreConfig where
  ContainerName : String
  DatabaseName : String
  DatabaseUser : String
  BackupPath : String
  DropExisting : Bool

/-- VerifyConfig (config.go lines 21-26). -/
structure VerifyConfig where
  SourceContainer : String
  TargetContainer : String
  DatabaseName : String
  DatabaseUser : String

/-! The container runtime gateway, internal/docker/service.go. -/

/-- Outcome of docker inspect for each container name: an execution error
(container unresolvable) or the raw combined output of the running-state
query. -/
structure DockerEnv where
  inspect : String → Except String String

/-- Service.VerifyContainer (docker/service.go lines 226-239). -/
def VerifyContainer (env : DockerEnv) (containerName : String) : Except String Unit :=
  match env.inspect containerName with
  | .error e => .error ("container '" ++ containerName ++ "' not found: " ++ e)
  | .ok out =>
    if trimSpace out = "true" then .ok ()
    else .error ("container '" ++ containerName ++ "' is not running")

/-! External actions. Every orchestration function below returns, besides its
result, the ordered list of external actions it actually performed. -/

/-- One external action of the orchestration service. -/
inductive EffOp where
  | mkdirAll (dir : String)
  | createFile (path : String)
  | deleteFile (path : String)
  | startDump (container db user : String)
  | copyStream
  | readStderr
  | execDrop (container db user : String)
  | execCreate (container db user : String)
  | startRestore (container db user : String)
  | copyStdin
  | readStderrRestore
  | checksumDump (container db user : String)
deriving DecidableEq

/-- Actions that create or write the artifact file. -/
def EffOp.writesArtifact : EffOp → Bool
  | .createFile _ => true
  | .copyStream => true
  | _ => false

/-- Actions that run a database-mutating command (drop, create, or the
restore process feeding psql). -/
def EffOp.mutatesDb : EffOp → Bool
  | .execDrop _ _ _ => true
  | .execCreate _ _ _ => true
  | .startRestore _ _ _ => true
  | _ => false

/-- Boolean error test on an Except result. -/
def exceptIsError {ε α : Type} : Except ε α → Bool
  | .error _ => true
  | .ok _ => false

/-! Service.Backup, internal/backup/service.go lines 29-86 (the revision with
the stderr pipe; the earlier revision of the same function, without stderr
capture, is identical up to line 68). Outcomes of the external calls are
drawn from a BackupEnv in program order. -/

/-- Outcomes of the external calls Backup makes, in program order. -/
structure BackupEnv where
  mkdirErr : Option String
  createErr : Option String
  stdoutPipeErr : Option String
  stderrPipeErr : Option String
  startErr : Option String
  copyErr : Option String
  stderrOut : String
  waitErr : Option String

/-- Service.Backup (service.go lines 29-86). -/
def Service.Backup (env : BackupEnv) (cfg : Config) : Except String String × List EffOp :=
  match env.mkdirErr with
  | some e => (.error ("failed to create output directory: " ++ e), [.mkdirAll cfg.OutputDir])
  | none =>
  let filename := backupFilename cfg.DatabaseName cfg.Timestamp
  let outputPath := joinPath cfg.OutputDir filename
  match env.createErr with
  | some e => (.error ("failed to create output file: " ++ e), [.mkdirAll cfg.OutputDir])
  | none =>
  let t1 : List EffOp := [.mkdirAll cfg.OutputDir, .createFile outputPath]
  match env.stdoutPipeErr with
  | some e => (.error ("failed to create stdout pipe: " ++ e), t1)
  | none =>
  match env.stderrPipeErr with
  | some e => (.error ("failed to create stderr pipe: " ++ e), t1)
  | none =>
  match env.startErr with
  | some e => (.error ("failed to start pg_dump: " ++ e), t1)
  | none =>
  let t2 := t1 ++ [.startDump cfg.ContainerName cfg.DatabaseName cfg.DatabaseUser]
  match env.copyErr with
  | some e => (.error ("failed to write backup: " ++ e), t2 ++ [.copyStream])
  | none =>
  let t3 := t2 ++ [.copyStream, .readStderr]
  match env.waitErr with
  | some e =>
    if env.stderrOut.length > 0 then
      (.error ("pg_dump failed: " ++ e ++ "\nError output: " ++ env.stderrOut), t3)
    else
      (.error ("pg_dump failed: " ++ e), t3)
  | none => (.ok outputPath, t3)

/-- The backup command core, cmd/commands.go lines 38-57: the liveness gate
(VerifyContainer) runs before Service.Backup is invoked. -/
def runBackupCore (denv : DockerEnv) (benv : BackupEnv) (cfg : Config) :
    Except String String × List EffOp :=
  match VerifyContainer denv cfg.ContainerName with
  | .error e => (.error ("container verification failed: " ++ e), [])
  | .ok _ =>
    match Service.Backup benv cfg with
    | (.error e, t) => (.error ("backup failed: " ++ e), t)
    | (.ok p, t) => (.ok p, t)

/-! Service.Restore, service.go lines 89-167. -/

/-- Outcomes of the external calls Restore makes, in program order. -/
structure RestoreEnv where
  openErr : Option String
  gzipErr : Option String
  dropOut : String
  dropErr : Option String
  createOut : String
  createErr : Option String
  stdinPipeErr : Option String
  stderrPipeErr : Option String
  startErr : Option String
  copyErr : Option String
  stderrOut : String
  waitErr : Option String

/-- The import phase of Restore (service.go lines 132-166): pipe the
decompressed artifact into psql and wait. -/
def restoreImport (env : RestoreEnv) (cfg : RestoreConfig) (t : List EffOp) :
    Except String Unit × List EffOp :=
  match env.stdinPipeErr with
  | some e => (.error ("failed to create stdin pipe: " ++ e), t)
  | none =>
  match env.stderrPipeErr with
  | some e => (.error ("failed to create stderr pipe: " ++ e), t)
  | none =>
  match env.startErr with
  | some e => (.error ("failed to start restore: " ++ e), t)
  | none =>
  let t2 := t ++ [.startRestore cfg.ContainerName cfg.DatabaseName cfg.DatabaseUser]
  match env.copyErr with
  | some e => (.error ("failed to restore backup: " ++ e), t2 ++ [.copyStdin])
  | none =>
  let t3 := t2 ++ [.copyStdin, .readStderrRestore]
  match env.waitErr with
  | some e =>
    if env.stderrOut.length > 0 then
      (.error ("restore failed: " ++ e ++ "\nError output: " ++ env.stderrOut), t3)
    else
      (.error ("restore failed: " ++ e), t3)
  | none => (.ok (), t3)

/-- The create-database step of Restore (service.go lines 119-130), with its
asymmetric failure policy, followed by the import phase. -/
def restoreCreate (env : RestoreEnv) (cfg : RestoreConfig) (t : List EffOp) :
    Except String Unit × List EffOp :=
  let t1 := t ++ [.execCreate cfg.ContainerName cfg.DatabaseName cfg.DatabaseUser]
  match env.createErr with
  | some e =>
    if cfg.DropExisting then
      (.error ("failed to create database: " ++ e ++ "\nOutput: " ++ env.createOut), t1)
    else
      restoreImport env cfg t1
  | none => restoreImport env cfg t1

/-- Service.Restore (service.go lines 89-167). -/
def Service.Restore (denv : DockerEnv) (env : RestoreEnv) (cfg : RestoreConfig) :
    Except String Unit × List EffOp :=
  match VerifyContainer denv cfg.ContainerName with
  | .error e => (.error ("container verification failed: " ++ e), [])
  | .ok _ =>
  match env.openErr with
  | some e => (.error ("failed to open backup file: " ++ e), [])
  | none =>
  match env.gzipErr with
  | some e => (.error ("failed to create gzip reader: " ++ e), [])
  | none =>
  if cfg.DropExisting then
    match env.dropErr with
    | some e =>
      (.error ("failed to drop database: " ++ e ++ "\nOutput: " ++ env.dropOut),
       [.execDrop cfg.ContainerName cfg.DatabaseName cfg.DatabaseUser])
    | none =>
      restoreCreate env cfg [.execDrop cfg.ContainerName cfg.DatabaseName cfg.DatabaseUser]
  else restoreCreate env cfg []

/-! Service.Verify and Service.getDatabaseChecksum, service.go lines 170-205. -/

/-- Outcome of one pg_dump --data-only --inserts run. Go CombinedOutput
gathers the process's stdout and stderr into a single buffer in arrival
order; it is modelled here with the schedule in which the diagnostic bytes
arrive after the data bytes. -/
structure ChecksumEnv where
  dataOut : List Nat
  diagOut : List Nat
  exitErr : Option String

/-- The single byte buffer CombinedOutput returns. -/
def combinedOutput (env : ChecksumEnv) : List Nat := env.dataOut ++ env.diagOut

/-- Render captured bytes as the string interpolated into error messages. -/
def bytesAsString (l : List Nat) : String := ⟨l.map (fun b => Char.ofNat b)⟩

/-- Service.getDatabaseChecksum (service.go lines 194-205): md5 of the
CombinedOutput of the dump command. -/
def Service.getDatabaseChecksum (env : ChecksumEnv) (containerName dbName dbUser : String) :
    Except String String × List EffOp :=
  let t : List EffOp := [.checksumDump containerName dbName dbUser]
  match env.exitErr with
  | some e =>
    (.error ("failed to dump database for checksum: " ++ e ++ "\nOutput: " ++
      bytesAsString (combinedOutput env)), t)
  | none => (.ok (md5hex (combinedOutput env)), t)

/-- The two dump outcomes a Verify call observes. -/
structure VerifyEnv where
  sourceDump : ChecksumEnv
  targetDump : ChecksumEnv

/-- Service.Verify (service.go lines 170-191). -/
def Service.Verify (denv : DockerEnv) (env : VerifyEnv) (cfg : VerifyConfig) :
    Except String Bool × List EffOp :=
  match VerifyContainer denv cfg.SourceContainer with
  | .error e => (.error ("source container verification failed: " ++ e), [])
  | .ok _ =>
  match VerifyContainer denv cfg.TargetContainer with
  | .error e => (.error ("target container verification failed: " ++ e), [])
  | .ok _ =>
  match Service.getDatabaseChecksum env.sourceDump cfg.SourceContainer cfg.DatabaseName cfg.DatabaseUser with
  | (.error e, t1) => (.error ("failed to get source checksum: " ++ e), t1)
  | (.ok srcSum, t1) =>
  match Service.getDatabaseChecksum env.targetDump cfg.TargetContainer cfg.DatabaseName cfg.DatabaseUser with
  | (.error e, t2) => (.error ("failed to get target checksum: " ++ e), t1 ++ t2)
  | (.ok tgtSum, t2) => (.ok (srcSum == tgtSum), t1 ++ t2)

/-! The composite test command, cmd/commands.go lines 150-224. -/

/-- All external outcomes a test run observes. -/
structure TestEnv where
  denv : DockerEnv
  benv : BackupEnv
  renv : RestoreEnv
  venv : VerifyEnv

/-- runTest core (commands.go lines 173-224): backup from the source, restore
into the target with DropExisting true at the path backup returned, then
verify source against target. -/
def runTestCore (env : TestEnv) (sourceContainer targetContainer dbName dbUser outputDir : String)
    (ts : Timestamp) : Except String Unit × List EffOp :=
  match Service.Backup env.benv ⟨sourceContainer, dbName, dbUser, outputDir, ts⟩ with
  | (.error e, tb) => (.error ("backup failed: " ++ e), tb)
  | (.ok backupPath, tb) =>
  match Service.Restore env.denv env.renv ⟨targetContainer, dbName, dbUser, backupPath, true⟩ with
  | (.error e, tr) => (.error ("restore failed: " ++ e), tb ++ tr)
  | (.ok _, tr) =>
  match Service.Verify env.denv env.venv ⟨sourceContainer, targetContainer, dbName, dbUser⟩ with
  | (.error e, tv) => (.error ("verification failed: " ++ e), tb ++ tr ++ tv)
  | (.ok b, tv) =>
    if b then (.ok (), tb ++ tr ++ tv)
    else (.error "test failed - databases do not match", tb ++ tr ++ tv)

/-! A small blocking-pipe semantics for the export path (service.go lines
53-83). One spawned process writes a data stream (stdout, copied into the
compressor) and a diagnostic stream (stderr); each stream passes through a
bounded OS pipe buffer. The orchestrating code of Backup is strictly
sequential: it first runs io.Copy on stdout to exhaustion (line 71) and only
then reads stderr (line 76); the corresponding consumer below can therefore
drain the diagnostic buffer only after the data stream has reached EOF.
The Restore import path (lines 151-157) has the same sequential shape. -/

/-- One action of the spawned external process. -/
inductive ProdAct where
  | emitData
  | emitDiag
  | close
deriving DecidableEq

/-- Where the sequential orchestrator is: still in io.Copy on the data
stream, in the ReadAll of the diagnostic stream, or done. -/
inductive DrainPhase where
  | copyData
  | drainDiag
  | finished
deriving DecidableEq

/-- A configuration of the process/orchestrator pipe system. -/
structure PipeSt where
  script : List ProdAct
  dataBuf : Nat
  diagBuf : Nat
  dataCap : Nat
  diagCap : Nat
  closed : Bool
  phase : DrainPhase
deriving DecidableEq

/-- The external process takes its next scripted action if its pipe has
room; a write into a full pipe buffer blocks. -/
def prodStep (s : PipeSt) : Option PipeSt :=
  match s.script with
  | [] => none
  | .emitData :: rest =>
    if s.dataBuf < s.dataCap then
      some { s with script := rest, dataBuf := s.dataBuf + 1 }
    else none
  | .emitDiag :: rest =>
    if s.diagBuf < s.diagCap then
      some { s with script := rest, diagBuf := s.diagBuf + 1 }
    else none
  | .close :: rest => some { s with script := rest, closed := true }

/-- The sequential orchestrator of Backup: a blocking read on the data
stream until EOF, then a blocking read on the diagnostic stream. -/
def seqDrain (s : PipeSt) : Option PipeSt :=
  match s.phase with
  | .copyData =>
    if s.dataBuf > 0 then some { s with dataBuf := s.dataBuf - 1 }
    else if s.closed then some { s with phase := .drainDiag }
    else none
  | .drainDiag =>
    if s.diagBuf > 0 then some { s with diagBuf := s.diagBuf - 1 }
    else if s.closed then some { s with phase := .finished }
    else none
  | .finished => none

/-- A concurrent orchestrator that drains whichever stream has bytes (the
strategy the specification prescribes: the stderr drain on its own task). -/
def concDrain (s : PipeSt) : Option PipeSt :=
  match s.phase with
  | .finished => none
  | _ =>
    if s.dataBuf > 0 then some { s with dataBuf := s.dataBuf - 1 }
    else if s.diagBuf > 0 then some { s with diagBuf := s.diagBuf - 1 }
    else if s.closed then some { s with phase := .finished }
    else none

/-- One system step: the process moves if it can, otherwise the orchestrator;
none when both are blocked. -/
def seqStep (s : PipeSt) : Option PipeSt :=
  match prodStep s with
  | some s2 => some s2
  | none => seqDrain s

/-- One system step under the concurrent drain strategy. -/
def concStep (s : PipeSt) : Option PipeSt :=
  match prodStep s with
  | some s2 => some s2
  | none => concDrain s

/-- Iterate a step function, stopping when no step is enabled. -/
def pipeRun (f : PipeSt → Option PipeSt) : Nat → PipeSt → PipeSt
  | 0, s => s
  | n + 1, s =>
    match f s with
    | some s2 => pipeRun f n s2
    | none => s

/-- Deadlock: no agent can move, yet the orchestrator has not finished. -/
def deadlocked (f : PipeSt → Option PipeSt) (s : PipeSt) : Bool :=
  (f s).isNone && (match s.phase with | .finished => false | _ => true)

/-! Concrete fixtures used by the witnesses and counterexamples. -/

/-- A runtime in which every container reports running. -/
def denvAll : DockerEnv := ⟨fun _ => .ok "true"⟩

/-- A runtime in which every container resolves but reports not running. -/
def denvStopped : DockerEnv := ⟨fun _ => .ok "false"⟩

/-- The concrete timestamp of the specification scenario (section 8). -/
def ts0 : Timestamp := ⟨2025, 1, 1, 10, 0, 0⟩

/-- All external calls of a backup succeed and pg_dump is silent. -/
def benvOK : BackupEnv := ⟨none, none, none, none, none, none, "", none⟩

/-- pg_dump exits non-zero after the copy, with diagnostics on stderr. -/
def benvDumpFail : BackupEnv :=
  ⟨none, none, none, none, none, none, "pg_dump: error: connection to server failed", some "exit status 1"⟩

/-- pg_dump cannot be started at all. -/
def benvStartFail : BackupEnv :=
  ⟨none, none, none, none, some "exec: docker executable not found", none, "", none⟩

/-- All external calls of a restore succeed. -/
def renvOK : RestoreEnv :=
  ⟨none, none, "", none, "", none, none, none, none, none, "", none⟩

/-- The create-database command fails (database already exists); everything
else succeeds. -/
def renvCreateFail : RestoreEnv :=
  ⟨none, none, "", none, "ERROR:  database already exists", some "exit status 1",
   none, none, none, none, "", none⟩

/-- The artifact is not a valid gzip stream. -/
def renvBadGzip : RestoreEnv :=
  ⟨none, some "gzip: invalid header", "", none, "", none, none, none, none, none, "", none⟩

/-- Both dumps succeed and produce the same data with no diagnostics. -/
def venvSame : VerifyEnv := ⟨⟨[99, 100], [], none⟩, ⟨[99, 100], [], none⟩⟩

/-- The source dump fails. -/
def venvSrcFail : VerifyEnv := ⟨⟨[], [], some "exit status 1"⟩, ⟨[99], [], none⟩⟩

/-- The backup configuration of the specification scenario (section 8). -/
def cfgB0 : Config := ⟨"pg1", "appdb", "postgres", "./backups", ts0⟩

/-- A restore configuration without drop-existing. -/
def cfgRNoDrop : RestoreConfig :=
  ⟨"pg2", "appdb", "postgres", "./backups/appdb_2025_01_01_10_00_00.sql.gz", false⟩

/-- A restore configuration with drop-existing. -/
def cfgRDrop : RestoreConfig :=
  ⟨"pg2", "appdb", "postgres", "./backups/appdb_2025_01_01_10_00_00.sql.gz", true⟩

/-- A verify configuration between the scenario containers. -/
def cfgV0 : VerifyConfig := ⟨"pg1", "pg2", "appdb", "postgres"⟩

/-- A full-success test environment. -/
def tenvOK : TestEnv := ⟨denvAll, benvOK, renvOK, venvSame⟩

/-- The pipe system in which pg_dump writes two diagnostic bytes (pipe
capacity one) before any data and before closing its streams. -/
def pipeSt0 : PipeSt :=
  ⟨[.emitDiag, .emitDiag, .emitData, .close], 0, 0, 1, 1, false, .copyData⟩

/-! Injectivity of the artifact naming scheme. -/

/-- Distinct decimal digits render as distinct characters. -/
theorem digitChar_inj {a b : Nat} (ha : a < 10) (hb : b < 10) :
    digitChar a = digitChar b → a = b := by
  interval_cases a <;> interval_cases b <;> decide

/-- Two-digit zero-padded rendering is injective below 100. -/
theorem pad2_inj {a b : Nat} (ha : a < 100) (hb : b < 100) :
    pad2 a = pad2 b → a = b := by
  intro h
  simp only [pad2, List.cons.injEq, and_true] at h
  have h1 := digitChar_inj (Nat.mod_lt _ (by omega)) (Nat.mod_lt _ (by omega)) h.1
  have h2 := digitChar_inj (Nat.mod_lt _ (by omega)) (Nat.mod_lt _ (by omega)) h.2
  omega

/-- Four-digit zero-padded rendering is injective below 10000. -/
theorem pad4_inj {a b : Nat} (ha : a < 10000) (hb : b < 10000) :
    pad4 a = pad4 b → a = b := by
  intro h
  simp only [pad4, List.cons.injEq, and_true] at h
  have h1 := digitChar_inj (Nat.mod_lt _ (by omega)) (Nat.mod_lt _ (by omega)) h.1
  have h2 := digitChar_inj (Nat.mod_lt _ (by omega)) (Nat.mod_lt _ (by omega)) h.2.1
  have h3 := digitChar_inj (Nat.mod_lt _ (by omega)) (Nat.mod_lt _ (by omega)) h.2.2.1
  have h4 := digitChar_inj (Nat.mod_lt _ (by omega)) (Nat.mod_lt _ (by omega)) h.2.2.2
  omega

/-- The rendered timestamp always has nineteen characters. -/
theorem tsChars_length (t : Timestamp) : (tsChars t).length = 19 := by
  simp [tsChars, pad4, pad2]

/-- On valid timestamps the rendered timestamp determines the timestamp. -/
theorem tsChars_inj {t1 t2 : Timestamp} (h1 : t1.valid) (h2 : t2.valid) :
    tsChars t1 = tsChars t2 → t1 = t2 := by
  obtain ⟨y1, mo1, d1, ho1, mi1, s1⟩ := t1
  obtain ⟨y2, mo2, d2, ho2, mi2, s2⟩ := t2
  intro h
  obtain ⟨hy1, hm1l, hm1, hd1l, hd1, hh1, hmi1, hs1⟩ := h1
  obtain ⟨hy2, hm2l, hm2, hd2l, hd2, hh2, hmi2, hs2⟩ := h2
  simp only at hy1 hm1l hm1 hd1l hd1 hh1 hmi1 hs1 hy2 hm2l hm2 hd2l hd2 hh2 hmi2 hs2
  unfold tsChars at h
  simp only at h
  obtain ⟨hy, h⟩ := List.append_inj h (by simp [pad4])
  injection h with _ h
  obtain ⟨hmo, h⟩ := List.append_inj h (by simp [pad2])
  injection h with _ h
  obtain ⟨hda, h⟩ := List.append_inj h (by simp [pad2])
  injection h with _ h
  obtain ⟨hho, h⟩ := List.append_inj h (by simp [pad2])
  injection h with _ h
  obtain ⟨hmi, hse⟩ := List.append_inj h (by simp [pad2])
  injection hse with _ hse
  simp only [Timestamp.mk.injEq]
  refine ⟨pad4_inj (by omega) (by omega) hy, pad2_inj (by omega) (by omega) hmo,
    pad2_inj (by omega) (by omega) hda, pad2_inj (by omega) (by omega) hho,
    pad2_inj (by omega) (by omega) hmi, pad2_inj (by omega) (by omega) hse⟩

/-- The character data of an artifact filename. -/
theorem backupFilename_data (db : String) (t : Timestamp) :
    (backupFilename db t).data = db.data ++ '_' :: (tsChars t ++ ".sql.gz".data) := by
  simp [backupFilename, formatTimestamp, String.data_append, List.append_assoc]

/-- On valid timestamps the artifact filename determines database name and
timestamp: names collide only on equal inputs. -/
theorem backupFilename_inj {db1 db2 : String} {t1 t2 : Timestamp}
    (h1 : t1.valid) (h2 : t2.valid)
    (h : backupFilename db1 t1 = backupFilename db2 t2) : db1 = db2 ∧ t1 = t2 := by
  have hd : (backupFilename db1 t1).data = (backupFilename db2 t2).data := by rw [h]
  rw [backupFilename_data, backupFilename_data] at hd
  obtain ⟨hdb, hrest⟩ := List.append_inj' hd (by simp [tsChars_length])
  injection hrest with _ hrest
  obtain ⟨hts, -⟩ := List.append_inj' hrest (by simp)
  exact ⟨String.ext hdb, tsChars_inj h1 h2 hts⟩

/-! Digest shape lemmas. -/

/-- Length of the hex-rendering fold. -/
theorem hexFold_length (l : List Nat) (acc : List Char) :
    (l.foldr (fun b r => hexDigit (b / 16) :: hexDigit (b % 16) :: r) acc).length
      = 2 * l.length + acc.length := by
  induction l with
  | nil => simp
  | cons a l ih => simp [ih]; omega

/-- md5.Sum always yields sixteen bytes. -/
theorem md5Bytes_length (m : List Nat) : (md5Bytes m).length = 16 := by
  simp [md5Bytes, md5Final, leBytes4]

/-- The rendered digest always has 32 characters: a fixed-size fingerprint. -/
theorem md5hex_length (m : List Nat) : (md5hex m).length = 32 := by
  show ((md5Bytes m).foldr (fun b acc => hexDigit (b / 16) :: hexDigit (b % 16) :: acc) []).length = 32
  rw [hexFold_length, md5Bytes_length]
  rfl

/-- Backup never performs a delete: whatever the outcome of the external
calls, no deleteFile action ever appears in its trace. -/
theorem backup_never_deletes (env : BackupEnv) (cfg : Config) (p : String) :
    EffOp.deleteFile p ∉ (Service.Backup env cfg).2 := by
  obtain ⟨m, c, so, se, st, cp, serr, w⟩ := env
  cases m <;> cases c <;> cases so <;> cases se <;> cases st <;> cases cp <;> cases w <;>
    simp [Service.Backup] <;> split <;> simp

/-- C5: the artifact filename function is deterministic (it is a function,
and equal database/timestamp inputs give equal names), collision-free at
seconds granularity (on valid timestamps, equal names force equal inputs),
and produces {database}_{YYYY_MM_DD_HH_MM_SS}.sql.gz. -/
theorem artifact_filename_c5 (db1 db2 : String) (t1 t2 : Timestamp)
    (h1 : t1.valid) (h2 : t2.valid) :
    (backupFilename db1 t1 = backupFilename db2 t2 ↔ db1 = db2 ∧ t1 = t2)
    ∧ backupFilename db1 t1 = db1 ++ "_" ++ formatTimestamp t1 ++ ".sql.gz" := by
  refine ⟨⟨fun h => backupFilename_inj h1 h2 h, ?_⟩, rfl⟩
  rintro ⟨rfl, rfl⟩
  rfl

/-- Witness for C5 at the concrete scenario inputs of the specification,
including the concrete rendering of the scenario filename. -/
theorem artifact_filename_c5_witness :
    Timestamp.valid ts0 ∧ Timestamp.valid ⟨2025, 1, 1, 10, 0, 1⟩ ∧
    ((backupFilename "appdb" ts0 = backupFilename "appdb" ⟨2025, 1, 1, 10, 0, 1⟩ ↔
        "appdb" = "appdb" ∧ ts0 = ⟨2025, 1, 1, 10, 0, 1⟩)
      ∧ backupFilename "appdb" ts0 = "appdb" ++ "_" ++ formatTimestamp ts0 ++ ".sql.gz")
    ∧ backupFilename "appdb" ts0 = "appdb_2025_01_01_10_00_00.sql.gz" :=
  ⟨by decide, by decide,
   artifact_filename_c5 "appdb" "appdb" ts0 ⟨2025, 1, 1, 10, 0, 1⟩ (by decide) (by decide),
   by decide⟩

/-- C4, counterexample: the digest is md5 of CombinedOutput, so diagnostic
bytes the dump tool writes on its error stream contribute to it. With data
bytes [100] and one stderr byte [55], the digest differs from the digest of
the data channel alone, refuting that nothing but the data stream
contributes. -/
theorem checksum_stderr_pollution_c4 :
    (Service.getDatabaseChecksum ⟨[100], [55], none⟩ "pg1" "appdb" "postgres").1 =
      .ok (md5hex ([100] ++ [55]))
    ∧ md5hex ([100] ++ [55]) ≠ md5hex [100] :=
  ⟨rfl, by decide⟩

/-- C4, amended: for each side of a Verify, the digest is a fixed-size
fingerprint (md5, 32 hex characters) computed over the combined
stdout-plus-stderr byte stream of the data-only dump command; when the tool
writes no diagnostics this is exactly the data channel. -/
theorem checksum_combined_c4 (env : ChecksumEnv) (c db u : String)
    (h : env.exitErr = none) :
    (Service.getDatabaseChecksum env c db u).1 = .ok (md5hex (env.dataOut ++ env.diagOut))
    ∧ (md5hex (env.dataOut ++ env.diagOut)).length = 32 :=
  ⟨by simp [Service.getDatabaseChecksum, h, combinedOutput], md5hex_length _⟩

/-- Witness for the amended C4 at a concrete dump outcome. -/
theorem checksum_combined_c4_witness :
    (Service.getDatabaseChecksum ⟨[99, 100], [], none⟩ "pg1" "appdb" "postgres").1 =
      .ok (md5hex ([99, 100] ++ []))
    ∧ (md5hex ([99, 100] ++ [])).length = 32 :=
  checksum_combined_c4 ⟨[99, 100], [], none⟩ "pg1" "appdb" "postgres" rfl

/-- C1: when the create-database command fails, the branch taken depends
only on DropExisting: with DropExisting the whole Restore fails with the
command's output attached; without it the failure is soft and Restore
proceeds to the import step and, when the import succeeds, returns success. -/
theorem restore_create_branch_c1 (denv : DockerEnv) (env : RestoreEnv) (cfg : RestoreConfig)
    (hver : VerifyContainer denv cfg.ContainerName = .ok ())
    (hopen : env.openErr = none) (hgz : env.gzipErr = none)
    (hdrop : env.dropErr = none) (e : String) (hcr : env.createErr = some e) :
    (cfg.DropExisting = true →
      (Service.Restore denv env cfg).1 =
        .error ("failed to create database: " ++ e ++ "\nOutput: " ++ env.createOut))
    ∧ (cfg.DropExisting = false → env.stdinPipeErr = none → env.stderrPipeErr = none →
        env.startErr = none → env.copyErr = none → env.waitErr = none →
        (Service.Restore denv env cfg).1 = .ok ()) := by
  constructor
  · intro hde
    simp [Service.Restore, hver, hopen, hgz, hde, hdrop, restoreCreate, hcr]
  · intro hde h1 h2 h3 h4 h5
    simp [Service.Restore, hver, hopen, hgz, hde, restoreCreate, hcr,
      restoreImport, h1, h2, h3, h4, h5]

/-- Witness for C1: with DropExisting false, a failing create-database step
is only a warning and the restore still succeeds. -/
theorem restore_create_branch_c1_witness :
    cfgRNoDrop.DropExisting = false ∧
    (Service.Restore denvAll renvCreateFail cfgRNoDrop).1 = .ok () :=
  ⟨rfl, (restore_create_branch_c1 denvAll renvCreateFail cfgRNoDrop rfl rfl rfl rfl
      "exit status 1" rfl).2 rfl rfl rfl rfl rfl rfl⟩

/-- C6: when the backup file cannot be opened or is not a valid compressed
stream, Restore fails and its trace contains no database-mutating command:
no drop, no create, no restore process. -/
theorem restore_validates_artifact_c6 (denv : DockerEnv) (env : RestoreEnv) (cfg : RestoreConfig)
    (h : env.openErr ≠ none ∨ env.gzipErr ≠ none) :
    exceptIsError (Service.Restore denv env cfg).1 = true ∧
    ∀ op ∈ (Service.Restore denv env cfg).2, op.mutatesDb = false := by
  cases hv : VerifyContainer denv cfg.ContainerName with
  | error e => simp [Service.Restore, hv, exceptIsError]
  | ok v =>
    cases v
    cases ho : env.openErr with
    | some e => simp [Service.Restore, hv, ho, exceptIsError]
    | none =>
      cases hg : env.gzipErr with
      | some e => simp [Service.Restore, hv, ho, hg, exceptIsError]
      | none => simp_all

/-- Witness for C6 at a malformed gzip artifact. -/
theorem restore_validates_artifact_c6_witness :
    (renvBadGzip.openErr ≠ none ∨ renvBadGzip.gzipErr ≠ none) ∧
    (exceptIsError (Service.Restore denvAll renvBadGzip cfgRDrop).1 = true ∧
      ∀ op ∈ (Service.Restore denvAll renvBadGzip cfgRDrop).2, op.mutatesDb = false) :=
  ⟨by decide, restore_validates_artifact_c6 denvAll renvBadGzip cfgRDrop (by decide)⟩

/-- C2: when the runtime reports the relevant container as resolvable but
not running (inspect output whose trimmed form differs from true), the
backup command, Restore, and Verify each fail with the liveness error and
perform no external action at all: the trace is empty, so in particular no
artifact is created and no drop, create, or restore command runs. For
Verify both the source-side and the target-side gates are covered. -/
theorem liveness_gate_c2 (denv : DockerEnv) (benv : BackupEnv) (renv : RestoreEnv)
    (venv : VerifyEnv) (bcfg : Config) (rcfg : RestoreConfig) (vcfg : VerifyConfig)
    (out : String) (hout : trimSpace out ≠ "true") :
    (denv.inspect bcfg.ContainerName = .ok out →
      (runBackupCore denv benv bcfg).1 =
        .error ("container verification failed: " ++
          ("container '" ++ bcfg.ContainerName ++ "' is not running"))
      ∧ (runBackupCore denv benv bcfg).2 = [])
    ∧ (denv.inspect rcfg.ContainerName = .ok out →
      (Service.Restore denv renv rcfg).1 =
        .error ("container verification failed: " ++
          ("container '" ++ rcfg.ContainerName ++ "' is not running"))
      ∧ (Service.Restore denv renv rcfg).2 = [])
    ∧ (denv.inspect vcfg.SourceContainer = .ok out →
      (Service.Verify denv venv vcfg).1 =
        .error ("source container verification failed: " ++
          ("container '" ++ vcfg.SourceContainer ++ "' is not running"))
      ∧ (Service.Verify denv venv vcfg).2 = [])
    ∧ (∀ outS, denv.inspect vcfg.SourceContainer = .ok outS → trimSpace outS = "true" →
      denv.inspect vcfg.TargetContainer = .ok out →
      (Service.Verify denv venv vcfg).1 =
        .error ("target container verification failed: " ++
          ("container '" ++ vcfg.TargetContainer ++ "' is not running"))
      ∧ (Service.Verify denv venv vcfg).2 = []) := by
  refine ⟨fun hi => ?_, fun hi => ?_, fun hi => ?_, fun outS hiS hS hi => ?_⟩
  · simp [runBackupCore, VerifyContainer, hi, hout]
  · simp [Service.Restore, VerifyContainer, hi, hout]
  · simp [Service.Verify, VerifyContainer, hi, hout]
  · simp [Service.Verify, VerifyContainer, hiS, hS, hi, hout]

/-- Witness for C2 against a stopped container, on the restore and backup
paths. -/
theorem liveness_gate_c2_witness :
    trimSpace "false" ≠ "true" ∧
    ((Service.Restore denvStopped renvOK cfgRDrop).1 =
        .error ("container verification failed: " ++
          ("container '" ++ cfgRDrop.ContainerName ++ "' is not running"))
      ∧ (Service.Restore denvStopped renvOK cfgRDrop).2 = []) ∧
    ((runBackupCore denvStopped benvOK cfgB0).1 =
        .error ("container verification failed: " ++
          ("container '" ++ cfgB0.ContainerName ++ "' is not running"))
      ∧ (runBackupCore denvStopped benvOK cfgB0).2 = []) :=
  ⟨by decide,
   (liveness_gate_c2 denvStopped benvOK renvOK venvSame cfgB0 cfgRDrop cfgV0 "false"
      (by decide)).2.1 rfl,
   (liveness_gate_c2 denvStopped benvOK renvOK venvSame cfgB0 cfgRDrop cfgV0 "false"
      (by decide)).1 rfl⟩

/-- C3: with both containers live, Verify returns ok of exactly the
equality test of the two digests (so match is true exactly when the digests
coincide), and a failure of either dump makes Verify return an operational
error instead of a clean boolean. -/
theorem verify_digest_c3 (denv : DockerEnv) (env : VerifyEnv) (cfg : VerifyConfig)
    (hs : VerifyContainer denv cfg.SourceContainer = .ok ())
    (ht : VerifyContainer denv cfg.TargetContainer = .ok ()) :
    (env.sourceDump.exitErr = none → env.targetDump.exitErr = none →
      (Service.Verify denv env cfg).1 =
        .ok (md5hex (combinedOutput env.sourceDump) == md5hex (combinedOutput env.targetDump))
      ∧ ((Service.Verify denv env cfg).1 = .ok true ↔
          md5hex (combinedOutput env.sourceDump) = md5hex (combinedOutput env.targetDump)))
    ∧ (∀ e, env.sourceDump.exitErr = some e →
        exceptIsError (Service.Verify denv env cfg).1 = true)
    ∧ (∀ e, env.sourceDump.exitErr = none → env.targetDump.exitErr = some e →
        exceptIsError (Service.Verify denv env cfg).1 = true) := by
  refine ⟨fun h1 h2 => ⟨?_, ?_⟩, fun e h1 => ?_, fun e h1 h2 => ?_⟩
  · simp [Service.Verify, hs, ht, Service.getDatabaseChecksum, h1, h2]
  · simp [Service.Verify, hs, ht, Service.getDatabaseChecksum, h1, h2, beq_iff_eq]
  · simp [Service.Verify, hs, ht, Service.getDatabaseChecksum, h1, exceptIsError]
  · simp [Service.Verify, hs, ht, Service.getDatabaseChecksum, h1, h2, exceptIsError]

/-- Witness for C3: equal dump streams verify as a match. -/
theorem verify_digest_c3_witness :
    (Service.Verify denvAll venvSame cfgV0).1 = .ok true :=
  (((verify_digest_c3 denvAll venvSame cfgV0 rfl rfl).1 rfl rfl).2).mpr rfl

/-- C7: when pg_dump exits non-zero after the copy, Backup fails with the
captured stderr text attached to the error, the created artifact file is in
the trace, and no Backup run ever deletes a file. -/
theorem backup_dump_failure_c7 (env : BackupEnv) (cfg : Config)
    (h1 : env.mkdirErr = none) (h2 : env.createErr = none)
    (h3 : env.stdoutPipeErr = none) (h4 : env.stderrPipeErr = none)
    (h5 : env.startErr = none) (h6 : env.copyErr = none)
    (e : String) (h7 : env.waitErr = some e) (h8 : env.stderrOut.length > 0) :
    (Service.Backup env cfg).1 =
      .error ("pg_dump failed: " ++ e ++ "\nError output: " ++ env.stderrOut)
    ∧ EffOp.createFile (joinPath cfg.OutputDir (backupFilename cfg.DatabaseName cfg.Timestamp))
        ∈ (Service.Backup env cfg).2
    ∧ ∀ env2 cfg2 p, EffOp.deleteFile p ∉ (Service.Backup env2 cfg2).2 := by
  refine ⟨?_, ?_, fun env2 cfg2 p => backup_never_deletes env2 cfg2 p⟩ <;>
    simp [Service.Backup, h1, h2, h3, h4, h5, h6, h7, h8, joinPath]

/-- Witness for C7 at a concrete failing dump. -/
theorem backup_dump_failure_c7_witness :
    benvDumpFail.stderrOut.length > 0 ∧
    (Service.Backup benvDumpFail cfgB0).1 =
      .error ("pg_dump failed: " ++ "exit status 1" ++ "\nError output: " ++ benvDumpFail.stderrOut) ∧
    EffOp.createFile (joinPath cfgB0.OutputDir (backupFilename cfgB0.DatabaseName cfgB0.Timestamp))
      ∈ (Service.Backup benvDumpFail cfgB0).2 :=
  ⟨by decide,
   (backup_dump_failure_c7 benvDumpFail cfgB0 rfl rfl rfl rfl rfl rfl "exit status 1" rfl
      (by decide)).1,
   (backup_dump_failure_c7 benvDumpFail cfgB0 rfl rfl rfl rfl rfl rfl "exit status 1" rfl
      (by decide)).2.1⟩

/-- C10: once the directory, file, and pipes are set up, the trace opens
with the directory creation followed immediately by the artifact-file
creation, both before any dump process starts; and Backup performs no
delete, so on any failure at or after starting pg_dump the empty or partial
artifact file remains on disk. -/
theorem backup_creates_before_dump_c10 (env : BackupEnv) (cfg : Config)
    (h1 : env.mkdirErr = none) (h2 : env.createErr = none)
    (h3 : env.stdoutPipeErr = none) (h4 : env.stderrPipeErr = none)
    (h5 : exceptIsError (Service.Backup env cfg).1 = true) :
    (Service.Backup env cfg).2.take 2 =
      [EffOp.mkdirAll cfg.OutputDir,
       EffOp.createFile (joinPath cfg.OutputDir (backupFilename cfg.DatabaseName cfg.Timestamp))]
    ∧ ∀ p, EffOp.deleteFile p ∉ (Service.Backup env cfg).2 := by
  refine ⟨?_, fun p => backup_never_deletes env cfg p⟩
  cases hst : env.startErr with
  | some e => simp [Service.Backup, h1, h2, h3, h4, hst]
  | none =>
    cases hcp : env.copyErr with
    | some e => simp [Service.Backup, h1, h2, h3, h4, hst, hcp]
    | none =>
      cases hw : env.waitErr with
      | some e =>
        simp only [Service.Backup, h1, h2, h3, h4, hst, hcp, hw]
        split <;> simp
      | none =>
        simp [Service.Backup, h1, h2, h3, h4, hst, hcp, hw, exceptIsError] at h5

/-- Witness for C10 at a dump that cannot even be started. -/
theorem backup_creates_before_dump_c10_witness :
    exceptIsError (Service.Backup benvStartFail cfgB0).1 = true ∧
    (Service.Backup benvStartFail cfgB0).2.take 2 =
      [EffOp.mkdirAll cfgB0.OutputDir,
       EffOp.createFile (joinPath cfgB0.OutputDir (backupFilename cfgB0.DatabaseName cfgB0.Timestamp))] ∧
    EffOp.deleteFile (joinPath cfgB0.OutputDir (backupFilename cfgB0.DatabaseName cfgB0.Timestamp))
      ∉ (Service.Backup benvStartFail cfgB0).2 :=
  ⟨by decide,
   (backup_creates_before_dump_c10 benvStartFail cfgB0 rfl rfl rfl rfl (by decide)).1,
   (backup_creates_before_dump_c10 benvStartFail cfgB0 rfl rfl rfl rfl (by decide)).2
     (joinPath cfgB0.OutputDir (backupFilename cfgB0.DatabaseName cfgB0.Timestamp))⟩

/-- C8: the test command succeeds exactly when Backup on the source
succeeds, Restore into the target with DropExisting true at the path Backup
returned succeeds, and Verify between source and target reports a match;
any stage failure fails the whole run, and the trace is the concatenation
of the stage traces in backup-restore-verify order. -/
theorem run_test_stages_c8 (env : TestEnv) (s t db u o : String) (ts : Timestamp) :
    ((runTestCore env s t db u o ts).1 = .ok () ↔
      ∃ p, (Service.Backup env.benv ⟨s, db, u, o, ts⟩).1 = .ok p ∧
        (Service.Restore env.denv env.renv ⟨t, db, u, p, true⟩).1 = .ok () ∧
        (Service.Verify env.denv env.venv ⟨s, t, db, u⟩).1 = .ok true)
    ∧ (exceptIsError (Service.Backup env.benv ⟨s, db, u, o, ts⟩).1 = true →
        exceptIsError (runTestCore env s t db u o ts).1 = true
        ∧ (runTestCore env s t db u o ts).2 = (Service.Backup env.benv ⟨s, db, u, o, ts⟩).2)
    ∧ (∀ p, (Service.Backup env.benv ⟨s, db, u, o, ts⟩).1 = .ok p →
        exceptIsError (Service.Restore env.denv env.renv ⟨t, db, u, p, true⟩).1 = true →
        exceptIsError (runTestCore env s t db u o ts).1 = true
        ∧ (runTestCore env s t db u o ts).2 =
            (Service.Backup env.benv ⟨s, db, u, o, ts⟩).2 ++
            (Service.Restore env.denv env.renv ⟨t, db, u, p, true⟩).2)
    ∧ (∀ p, (Service.Backup env.benv ⟨s, db, u, o, ts⟩).1 = .ok p →
        (Service.Restore env.denv env.renv ⟨t, db, u, p, true⟩).1 = .ok () →
        (runTestCore env s t db u o ts).2 =
          (Service.Backup env.benv ⟨s, db, u, o, ts⟩).2 ++
          (Service.Restore env.denv env.renv ⟨t, db, u, p, true⟩).2 ++
          (Service.Verify env.denv env.venv ⟨s, t, db, u⟩).2) := by
  rcases hb : Service.Backup env.benv ⟨s, db, u, o, ts⟩ with ⟨rb, tb⟩
  cases rb with
  | error e => simp [runTestCore, hb, exceptIsError]
  | ok p0 =>
    rcases hr : Service.Restore env.denv env.renv ⟨t, db, u, p0, true⟩ with ⟨rr, tr⟩
    cases rr with
    | error e => simp [runTestCore, hb, hr, exceptIsError]
    | ok v =>
      cases v
      rcases hv : Service.Verify env.denv env.venv ⟨s, t, db, u⟩ with ⟨rv, tv⟩
      cases rv with
      | error e => simp [runTestCore, hb, hr, hv, exceptIsError]
      | ok b => cases b <;> simp [runTestCore, hb, hr, hv, exceptIsError, List.append_assoc]

/-- Witness for C8: a fully successful scenario run ends in success. -/
theorem run_test_stages_c8_witness :
    (runTestCore tenvOK "pg1" "pg2" "appdb" "postgres" "./backups" ts0).1 = .ok () :=
  (run_test_stages_c8 tenvOK "pg1" "pg2" "appdb" "postgres" "./backups" ts0).1.mpr
    ⟨joinPath "./backups" (backupFilename "appdb" ts0), rfl, rfl, rfl⟩

/-- C9 (refuting the claimed concurrency): in Backup the stderr read occurs
strictly after the stdout copy in the sequential trace, and under the
blocking-pipe semantics this sequential strategy deadlocks as soon as the
dump process fills its stderr pipe buffer before closing stdout, while the
concurrent drain the specification prescribes finishes the same scenario. -/
theorem stderr_drain_sequential_c9 :
    (Service.Backup benvOK cfgB0).2 =
      [EffOp.mkdirAll "./backups",
       EffOp.createFile (joinPath "./backups" (backupFilename "appdb" ts0)),
       EffOp.startDump "pg1" "appdb" "postgres", EffOp.copyStream, EffOp.readStderr]
    ∧ deadlocked seqStep (pipeRun seqStep 1 pipeSt0) = true
    ∧ (pipeRun concStep 12 pipeSt0).phase = DrainPhase.finished :=
  ⟨rfl, by decide, by decide⟩
